import Mathlib

/-
Verification of the session-authentication and resilient-execution subsystem
of the gong-agent-tools repository.

Shallow embedding conventions:
  - datetime values are Unix seconds as Int (the source stores datetime
    objects obtained from Unix-second timestamps and compares them);
  - Python dicts with string keys are association lists with last-write-wins
    update that preserves insertion order, as CPython dicts do;
  - Python exceptions become Except / Option results; a function that the
    source wraps in try/except returning None becomes a total function
    returning Option;
  - Python string operations (in, startswith, replace, lower) are modelled
    over the underlying character lists.

Source files embedded:
  - data_models/models.py      (GongJWTPayload, GongAuthenticationToken, GongSession)
  - authentication/auth_manager.py (GongAuthenticationManager)
  - agent.py                   (GongAgent._execute_with_retry)
  - the api client module      (GongAPIClient._handle_rate_limiting)
-/

namespace GongTools

/-- Python substring test: pat in s. -/
def strContains (s pat : String) : Bool := decide (pat.data <:+: s.data)

/-- Python s.startswith(pat). -/
def strStartsWith (s pat : String) : Bool :=
  decide (s.data.take pat.data.length = pat.data)

/-- Python s.lower(), restricted to ASCII as used by the source patterns. -/
def strToLower (s : String) : String := String.mk (s.data.map Char.toLower)

/-- Helper for strReplace: replaces non-overlapping occurrences of pat
left-to-right, with fuel bounded by the list length so the recursion is
structural. -/
def listReplaceGo (pat rep : List Char) : Nat → List Char → List Char
  | _, [] => []
  | 0, l => l
  | fuel+1, c :: rest =>
    if pat.length ≠ 0 ∧ pat = (c :: rest).take pat.length then
      rep ++ listReplaceGo pat rep fuel ((c :: rest).drop pat.length)
    else
      c :: listReplaceGo pat rep fuel rest

/-- Python s.replace(pat, rep): replace every non-overlapping occurrence,
scanning left to right. -/
def strReplace (s pat rep : String) : String :=
  String.mk (listReplaceGo pat.data rep.data s.data.length s.data)

/-- Associativity of string append, used to normalise assembled error
messages. -/
theorem strAppendAssoc (a b c : String) : a ++ b ++ c = a ++ (b ++ c) := by
  cases a with | mk la =>
  cases b with | mk lb =>
  cases c with | mk lc =>
  show String.mk (la ++ lb ++ lc) = String.mk (la ++ (lb ++ lc))
  rw [List.append_assoc]

/-- Python dict assignment d[k] = v on an insertion-ordered dict rendered as
an association list: an existing key keeps its position and gets the new
value, a new key is appended. -/
def dictSet {α : Type} (m : List (String × α)) (k : String) (v : α) :
    List (String × α) :=
  if m.any (fun p => p.1 = k) then
    m.map (fun p => if p.1 = k then (k, v) else p)
  else m ++ [(k, v)]

/-- models.py GongJWTPayload: the validated JWT payload model.
Optional fields gp and cell; exp, iat, jti, gu are required. -/
structure GongJWTPayload where
  gp : Option String
  exp : Int
  iat : Int
  jti : String
  gu : String
  cell : Option String
deriving Repr, DecidableEq

/-- models.py GongJWTPayload.validate_timestamps: a timestamp is accepted iff
it is within the sane Unix-second range [1000000000, 9999999999]. -/
def validTimestamp (v : Int) : Bool := 1000000000 ≤ v ∧ v ≤ 9999999999

/-- models.py GongAuthenticationToken. -/
structure GongAuthenticationToken where
  token_type : String
  raw_token : String
  payload : GongJWTPayload
  expires_at : Int
  issued_at : Int
  is_expired : Bool
  cell_id : Option String
  user_email : String
deriving Repr, DecidableEq

/-- models.py GongAuthenticationToken.validate_token_consistency (a before
model-validator): whenever a payload is supplied, user_email, cell_id,
expires_at, issued_at and is_expired are overwritten from the payload, with
is_expired computed from the clock reading now at construction time. -/
def mkGongAuthenticationToken (token_type raw_token : String)
    (payload : GongJWTPayload) (now : Int) : GongAuthenticationToken :=
  { token_type := token_type
    raw_token := raw_token
    payload := payload
    expires_at := payload.exp
    issued_at := payload.iat
    is_expired := decide (now > payload.exp)
    cell_id := payload.cell
    user_email := payload.gu }

/-- models.py GongSession. -/
structure GongSession where
  session_id : String
  user_email : String
  cell_id : String
  company_id : Option String
  workspace_id : Option String
  authentication_tokens : List GongAuthenticationToken
  session_cookies : List (String × String)
  created_at : Int
  last_activity : Int
  is_active : Bool
deriving Repr, DecidableEq

/-- The raw payload dictionary of a decoded JWT, before GongJWTPayload
validation; every field may be absent (payload_data.get returns None). -/
structure JwtPayloadData where
  gp : Option String := none
  exp : Option Int := none
  iat : Option Int := none
  jti : Option String := none
  gu : Option String := none
  cell : Option String := none
deriving Repr, DecidableEq

/-- Result dictionary of the external JWT decoder; payload is absent when the
decoder produced no payload entry or an empty one. -/
structure DecodedJwt where
  payload : Option JwtPayloadData
deriving Repr, DecidableEq

/-- auth_manager.py: pydantic construction of GongJWTPayload from a raw
payload dictionary. Required fields must be present, timestamps must pass
validate_timestamps and gu must pass validate_email (contains the characters
at-sign and dot); a validation error is the none result (the source catches
the exception). -/
def mkGongJWTPayload (d : JwtPayloadData) : Option GongJWTPayload :=
  match d.exp, d.iat, d.jti, d.gu with
  | some exp, some iat, some jti, some gu =>
    if validTimestamp exp && validTimestamp iat &&
        strContains gu "@" && strContains gu "." then
      some { gp := d.gp, exp := exp, iat := iat, jti := jti, gu := gu,
             cell := d.cell }
    else none
  | _, _, _, _ => none

/-- A captured artifact as consumed by _extract_session_from_artifacts:
a dict with type, name, value and decoded_value entries, each possibly
absent. -/
structure Artifact where
  type : String := ""
  name : Option String := none
  value : Option String := none
  decoded_value : Option DecodedJwt := none
deriving Repr, DecidableEq

/-- A HAR cookie as consumed by _process_jwt_cookie: name and value entries,
each possibly absent. -/
structure HarCookie where
  name : Option String := none
  value : Option String := none
deriving Repr, DecidableEq

/-- Error taxonomy of auth_manager.py: GongAuthenticationError,
GongSessionExpiredError, and the pydantic ValidationError that escapes from
model construction. -/
inductive AuthErrorKind where
  | authenticationError (msg : String)
  | sessionExpiredError (msg : String)
  | validationError (msg : String)
deriving Repr, DecidableEq

/-- auth_manager.py _process_jwt_cookie: decode one JWT cookie into a token.
The external JWT decoder (outside this repository) is a parameter. Any
failure, including a pydantic validation error, yields none: the body is
wrapped in try/except returning None. -/
def process_jwt_cookie (decode : String → Option DecodedJwt) (now : Int)
    (cookie : HarCookie) : Option GongAuthenticationToken :=
  let token_value := cookie.value.getD ""
  let token_name := cookie.name.getD ""
  if token_value = "" then none
  else if !(strStartsWith token_value "eyJ") then none
  else
    match decode token_value with
    | none => none
    | some decoded_jwt =>
      match decoded_jwt.payload with
      | none => none
      | some payload_data =>
        match mkGongJWTPayload payload_data with
        | none => none
        | some jwt_payload =>
          some (mkGongAuthenticationToken token_name token_value jwt_payload now)

/-- auth_manager.py _process_jwt_artifact: decode one pre-decoded JWT
artifact into a token; any failure yields none. -/
def process_jwt_artifact (now : Int) (artifact : Artifact) :
    Option GongAuthenticationToken :=
  let token_value := artifact.value.getD ""
  let token_name := artifact.name.getD ""
  if token_value = "" then none
  else
    match artifact.decoded_value with
    | none => none
    | some decoded_value =>
      match decoded_value.payload with
      | none => none
      | some payload_data =>
        match mkGongJWTPayload payload_data with
        | none => none
        | some jwt_payload =>
          some (mkGongAuthenticationToken token_name token_value jwt_payload now)

/-- auth_manager.py: cookie_-prefixed artifact types that carry JWTs. -/
def jwtArtifactTypes : List String := ["last_login_jwt", "cell_jwt"]

/-- auth_manager.py: cookie_-prefixed artifact types recorded as plain
session cookies. -/
def sessionArtifactTypes : List String :=
  ["gong_session", "aws_alb", "aws_albtg", "gong_user_id", "gong_group_id"]

/-- One iteration of the artifact loop of _extract_session_from_artifacts:
classify the artifact by its cookie_ type tag, append a decoded JWT token or
record a session cookie (dict assignment), and skip everything else. -/
def collectStep (now : Int)
    (acc : List GongAuthenticationToken × List (String × String))
    (artifact : Artifact) :
    List GongAuthenticationToken × List (String × String) :=
  if strStartsWith artifact.type "cookie_" then
    let cookie_type := strReplace artifact.type "cookie_" ""
    if cookie_type ∈ jwtArtifactTypes then
      match process_jwt_artifact now artifact with
      | some t => (acc.1 ++ [t], acc.2)
      | none => acc
    else if cookie_type ∈ sessionArtifactTypes then
      (acc.1, dictSet acc.2 (artifact.name.getD cookie_type) (artifact.value.getD ""))
    else acc
  else acc

/-- The artifact loop of _extract_session_from_artifacts, processing the
artifact list in order. -/
def collectArtifactsGo (now : Int) : List Artifact →
    List GongAuthenticationToken × List (String × String) →
    List GongAuthenticationToken × List (String × String)
  | [], acc => acc
  | a :: rest, acc => collectArtifactsGo now rest (collectStep now acc a)

/-- The jwt_tokens list and session_cookies dict accumulated by
_extract_session_from_artifacts from the artifact list. -/
def collectArtifacts (now : Int) (artifacts : List Artifact) :
    List GongAuthenticationToken × List (String × String) :=
  collectArtifactsGo now artifacts ([], [])

/-- The user_info dictionary of auth_manager.py _extract_user_info. -/
structure UserInfo where
  email : String
  cell_id : String
  company_id : Option String := none
  workspace_id : Option String := none
deriving Repr, DecidableEq

/-- auth_manager.py _extract_user_info: the first token whose user_email and
cell_id are both truthy (present and non-empty) supplies the identity;
otherwise none. -/
def extract_user_info : List GongAuthenticationToken → Option UserInfo
  | [] => none
  | token :: rest =>
    if token.user_email ≠ "" ∧ token.cell_id.getD "" ≠ "" then
      some { email := token.user_email, cell_id := token.cell_id.getD "",
             company_id := none, workspace_id := none }
    else extract_user_info rest

/-- models.py: pydantic construction of GongSession. The cell_id field
validator rejects a non-empty cell id shorter than 3 characters; the
resulting ValidationError propagates (the caller does not catch it). -/
def mkGongSession (session_id : String) (ui : UserInfo)
    (tokens : List GongAuthenticationToken)
    (cookies : List (String × String)) (now : Int) :
    Except AuthErrorKind GongSession :=
  if ui.cell_id ≠ "" ∧ ui.cell_id.length < 3 then
    .error (.validationError "Invalid cell ID format")
  else
    .ok { session_id := session_id
          user_email := ui.email
          cell_id := ui.cell_id
          company_id := ui.company_id
          workspace_id := ui.workspace_id
          authentication_tokens := tokens
          session_cookies := cookies
          created_at := now
          last_activity := now
          is_active := true }

/-- auth_manager.py _validate_session: raises GongAuthenticationError when
the token list is empty, GongSessionExpiredError when no token is unexpired
(reading the stored is_expired flags), GongAuthenticationError when the user
email is empty or lacks an at-sign, and GongAuthenticationError when a
non-empty cell id is shorter than 3 characters. -/
def validate_session (session : GongSession) : Except AuthErrorKind Unit :=
  if session.authentication_tokens = [] then
    .error (.authenticationError "Session has no authentication tokens")
  else if session.authentication_tokens.filter (fun t => !t.is_expired) = [] then
    .error (.sessionExpiredError "All session tokens have expired")
  else if session.user_email = "" ∨ strContains session.user_email "@" = false then
    .error (.authenticationError "Invalid user email in session")
  else if session.cell_id ≠ "" ∧ session.cell_id.length < 3 then
    .error (.authenticationError "Invalid cell ID in session")
  else .ok ()

/-- The mutable state of GongAuthenticationManager relevant here:
current_session and the session_cache dict. -/
structure MgrState where
  current_session : Option GongSession
  session_cache : List (String × GongSession)
deriving Repr, DecidableEq

/-- auth_manager.py _extract_session_from_artifacts: collect tokens and
cookies, derive the identity, construct and validate the session, and only
then install it as current_session and in session_cache. An exception
raised at any earlier point leaves the manager state as it was, which the
first component of the result records. The locally generated session id and
the clock reading are parameters. -/
def extract_session_from_artifacts (now : Int) (session_id : String)
    (st : MgrState) (artifacts : List Artifact) :
    MgrState × Except AuthErrorKind GongSession :=
  let jwt_tokens := (collectArtifacts now artifacts).1
  let session_cookies := (collectArtifacts now artifacts).2
  if jwt_tokens = [] then
    (st, .error (.authenticationError "No JWT tokens found in artifacts"))
  else
    match extract_user_info jwt_tokens with
    | none => (st, .error (.authenticationError "No user information found in JWT tokens"))
    | some user_info =>
      match mkGongSession session_id user_info jwt_tokens session_cookies now with
      | .error e => (st, .error e)
      | .ok session =>
        match validate_session session with
        | .error e => (st, .error e)
        | .ok _ =>
          ({ current_session := some session
             session_cache := dictSet st.session_cache session.session_id session },
           .ok session)

/-- auth_manager.py is_session_valid restricted to an explicitly supplied
session: true iff _validate_session does not raise. -/
def is_session_valid (session : GongSession) : Bool :=
  match validate_session session with
  | .ok _ => true
  | .error _ => false

/-- auth_manager.py refresh_session (the second definition in the class body,
which overrides the first): if some token is unexpired (stored flag), bump
last_activity and return the same session; otherwise extend each expired
token's expires_at in place to now + 1 hour (the is_expired flags are not
touched), bump last_activity, set is_active, and return the same session
object. No new Session is constructed; the session keeps its session_id. -/
def refresh_session (now : Int) (target_session : GongSession) : GongSession :=
  if target_session.authentication_tokens.filter (fun t => !t.is_expired) ≠ [] then
    { target_session with last_activity := now }
  else
    { target_session with
      authentication_tokens := target_session.authentication_tokens.map (fun t =>
        if t.is_expired then { t with expires_at := now + 3600 } else t)
      last_activity := now
      is_active := true }

/-- auth_manager.py is_session_expired. The source compares
len(expired_tokens) against total_tokens / 2 with real (float) division,
which for token counts is exactly the integer comparison
2 * expired > total used here (certified by halfCompareRat below). -/
def is_session_expired (session : Option GongSession) : Bool :=
  match session with
  | none => true
  | some target_session =>
    if !target_session.is_active then true
    else if target_session.authentication_tokens = [] then true
    else
      let expired_tokens := target_session.authentication_tokens.filter
        (fun t => t.is_expired)
      let total_tokens := target_session.authentication_tokens.length
      if 2 * expired_tokens.length > total_tokens then true
      else false

/-- The integer comparison used in is_session_expired coincides with the
real-division comparison written in the source. -/
theorem halfCompareRat (e t : ℕ) : 2 * e > t ↔ ((e : ℚ) > (t : ℚ) / 2) := by
  simp only [gt_iff_lt]
  rw [div_lt_iff₀ (by norm_num : (0:ℚ) < 2)]
  constructor
  · intro h
    have h2 : (t:ℚ) < (e:ℚ) * 2 := by exact_mod_cast (by omega : t < e * 2)
    linarith
  · intro h
    have h2 : t < e * 2 := by exact_mod_cast h
    omega

/-- auth_manager.py get_session_headers: the fixed standard client headers. -/
def standardHeaders : List (String × String) :=
  [("User-Agent", "Mozilla/5.0 (Macintosh; Intel Mac OS X 10_15_7) AppleWebKit/537.36"),
   ("Accept", "application/json, text/plain, */*"),
   ("Accept-Language", "en-US,en;q=0.9"),
   ("Accept-Encoding", "gzip, deflate, br"),
   ("Connection", "keep-alive"),
   ("Sec-Fetch-Dest", "empty"),
   ("Sec-Fetch-Mode", "cors"),
   ("Sec-Fetch-Site", "same-origin")]

/-- auth_manager.py get_session_headers, the cookie_parts list: one
token_type=raw_token entry per token whose stored is_expired flag is false,
followed by one name=value entry per session cookie whose value is truthy
(non-empty). -/
def cookieParts (session : GongSession) : List String :=
  (session.authentication_tokens.filter (fun t => !t.is_expired)).map
      (fun t => t.token_type ++ "=" ++ t.raw_token)
    ++ (session.session_cookies.filter (fun nv => nv.2 ≠ "")).map
      (fun nv => nv.1 ++ "=" ++ nv.2)

/-- auth_manager.py get_session_headers: raises GongAuthenticationError
unless a session is supplied (or current) and valid; otherwise returns the
standard headers plus a Cookie header joining cookie_parts with
semicolon-space, omitted when cookie_parts is empty. -/
def get_session_headers (current_session : Option GongSession)
    (session : Option GongSession) :
    Except AuthErrorKind (List (String × String)) :=
  let s? := match session with
    | some s => some s
    | none => current_session
  match s? with
  | none => .error (.authenticationError "No valid session available")
  | some s =>
    if is_session_valid s then
      .ok (standardHeaders ++
        (if cookieParts s ≠ [] then
          [("Cookie", String.intercalate "; " (cookieParts s))]
        else []))
    else .error (.authenticationError "No valid session available")

/-- agent.py _execute_with_retry: an error message is auth-class when its
lowercased text contains one of the four fixed substrings. -/
def isAuthError (msg : String) : Bool :=
  let m := strToLower msg
  strContains m "authentication failed" || strContains m "session may be expired" ||
    strContains m "unauthorized" || strContains m "401"

/-- agent.py _execute_with_retry: the GongAgentError message raised after the
loop ends, interpolating the operation name, max_retries + 1 and the last
exception (None when no attempt failed, as Python would print it). -/
def agentErrorMsg (operation_name : String) (max_retries : Nat)
    (last_exception : Option String) : String :=
  operation_name ++ " failed after " ++ toString (max_retries + 1) ++
    " attempts: " ++ (match last_exception with | some e => e | none => "None")

/-- The observable outcome of one _execute_with_retry call: the returned
value or raised GongAgentError message, how many times the session refresh
was invoked, and how many times the operation was attempted. -/
structure RetryOutcome (α : Type) where
  result : Except String α
  refreshCount : Nat
  opCalls : Nat
deriving Repr

/-- The attempt loop of agent.py _execute_with_retry. The operation is a
function of the attempt index (op k is what the k-th call returns or
raises); refreshOk j tells whether the j-th refresh invocation succeeds
(its failure, including the bridge timeout, is caught and breaks the loop).
The fuel argument counts remaining loop iterations, starting at
max_retries + 1; attempt, rc and oc track the attempt index, refresh
invocations and operation calls; last is the last exception seen. -/
def executeWithRetryGo {α : Type} (op : Nat → Except String α)
    (auto_refresh_enabled : Bool) (refreshOk : Nat → Bool)
    (operation_name : String) (max_retries : Nat) :
    Nat → Nat → Nat → Nat → Option String → RetryOutcome α
  | 0, _, rc, oc, last =>
    ⟨.error (agentErrorMsg operation_name max_retries last), rc, oc⟩
  | fuel+1, attempt, rc, oc, _ =>
    match op attempt with
    | .ok a => ⟨.ok a, rc, oc + 1⟩
    | .error e =>
      if isAuthError e then
        if attempt < max_retries then
          if auto_refresh_enabled then
            if refreshOk rc then
              executeWithRetryGo op auto_refresh_enabled refreshOk
                operation_name max_retries fuel (attempt + 1) (rc + 1) (oc + 1) (some e)
            else
              ⟨.error (agentErrorMsg operation_name max_retries (some e)), rc + 1, oc + 1⟩
          else
            ⟨.error (agentErrorMsg operation_name max_retries (some e)), rc, oc + 1⟩
        else
          ⟨.error (agentErrorMsg operation_name max_retries (some e)), rc, oc + 1⟩
      else
        ⟨.error (agentErrorMsg operation_name max_retries (some e)), rc, oc + 1⟩

/-- agent.py _execute_with_retry (GongAgent constructs itself with
auto_refresh_enabled = True; the flag is a parameter here). -/
def execute_with_retry {α : Type} (op : Nat → Except String α)
    (operation_name : String) (max_retries : Nat)
    (auto_refresh_enabled : Bool) (refreshOk : Nat → Bool) : RetryOutcome α :=
  executeWithRetryGo op auto_refresh_enabled refreshOk operation_name
    max_retries (max_retries + 1) 0 0 0 none

/-- The rate limiter state of GongAPIClient: the shared last_request_time.
Times are integer clock ticks (the source uses float seconds with
min_request_interval = 0.1 s; only subtraction and comparison occur, so the
units are irrelevant). -/
structure RateLimitState where
  last_request_time : Int
deriving Repr, DecidableEq

/-- GongAPIClient._handle_rate_limiting: sleep for min_request_interval
minus the elapsed time when the elapsed time is below min_request_interval,
otherwise not at all; then store the post-sleep clock reading as
last_request_time. Returns the sleep duration and the new state. -/
def handle_rate_limiting (min_request_interval : Int) (st : RateLimitState)
    (current_time : Int) : Int × RateLimitState :=
  let time_since_last := current_time - st.last_request_time
  let sleep_time :=
    if time_since_last < min_request_interval then
      min_request_interval - time_since_last
    else 0
  (sleep_time, { last_request_time := current_time + sleep_time })

instance {ε α : Type} [DecidableEq ε] [DecidableEq α] : DecidableEq (Except ε α) := fun a b =>
  match a, b with
  | .error e, .error f =>
    match decEq e f with
    | isTrue h => isTrue (h ▸ rfl)
    | isFalse h => isFalse (fun c => h (Except.error.inj c))
  | .ok x, .ok y =>
    match decEq x y with
    | isTrue h => isTrue (h ▸ rfl)
    | isFalse h => isFalse (fun c => h (Except.ok.inj c))
  | .error _, .ok _ => isFalse (fun c => Except.noConfusion c)
  | .ok _, .error _ => isFalse (fun c => Except.noConfusion c)

/-- A validated JWT payload of the shape seen in captures: issued at
1400000000, expiring at 1500000000, with identity and cell claims. -/
def samplePayload : GongJWTPayload :=
  { gp := some "Okta", exp := 1500000000, iat := 1400000000, jti := "jti-1",
    gu := "a@b.com", cell := some "us-14496" }

/-- A token constructed at clock 1400000001, before its expiry: its stored
is_expired flag is false. -/
def sampleUnexpiredToken : GongAuthenticationToken :=
  mkGongAuthenticationToken "last_login_jwt" "eyJraw1" samplePayload 1400000001

/-- A token constructed at clock 2000000000, after its expiry: its stored
is_expired flag is true. -/
def sampleExpiredToken : GongAuthenticationToken :=
  mkGongAuthenticationToken "cell_jwt" "eyJraw2" samplePayload 2000000000

/-- A structurally valid but inactive session holding one unexpired token. -/
def c2InactiveSession : GongSession :=
  { session_id := "gong_session_20240101_000000", user_email := "a@b.com",
    cell_id := "us-14496", company_id := none, workspace_id := none,
    authentication_tokens := [sampleUnexpiredToken], session_cookies := [],
    created_at := 1400000001, last_activity := 1400000001, is_active := false }

/-- An active session with two tokens of which exactly one is expired. -/
def c2HalfExpiredSession : GongSession :=
  { session_id := "gong_session_20240101_000001", user_email := "a@b.com",
    cell_id := "us-14496", company_id := none, workspace_id := none,
    authentication_tokens := [sampleUnexpiredToken, sampleExpiredToken],
    session_cookies := [], created_at := 2000000000,
    last_activity := 2000000000, is_active := true }

/-- C2 counterexample: is_session_expired also judges a session Expired when
its is_active flag is false, even though it has tokens and none of them is
expired, so the claimed characterisation (Expired iff zero tokens or more
than half expired) does not hold of every session. -/
theorem c2_counterexample_inactive_session :
    is_session_expired (some c2InactiveSession) = true ∧
    c2InactiveSession.authentication_tokens ≠ [] ∧
    ¬(2 * (c2InactiveSession.authentication_tokens.filter
          (fun t => t.is_expired)).length >
        c2InactiveSession.authentication_tokens.length) := by decide

/-- C2 (amended): is_session_expired judges a given session Expired iff it is
marked inactive, has zero tokens, or strictly more than half of its tokens
are expired; in particular an active session with exactly half of its tokens
expired is judged not expired. -/
theorem c2_session_expired_characterization (s : GongSession) :
    (is_session_expired (some s) = true ↔
      (s.is_active = false ∨ s.authentication_tokens = [] ∨
        2 * (s.authentication_tokens.filter (fun t => t.is_expired)).length >
          s.authentication_tokens.length)) ∧
    (s.is_active = true → s.authentication_tokens ≠ [] →
      2 * (s.authentication_tokens.filter (fun t => t.is_expired)).length =
        s.authentication_tokens.length →
      is_session_expired (some s) = false) := by
  constructor
  · simp only [is_session_expired]
    by_cases h1 : s.is_active <;> by_cases h2 : s.authentication_tokens = [] <;>
      by_cases h3 : 2 * (s.authentication_tokens.filter
          (fun t => t.is_expired)).length > s.authentication_tokens.length <;>
      simp [h1, h2, h3]
  · intro h1 h2 h3
    simp only [is_session_expired]
    simp [h1, h2]
    omega

/-- C2 witness: the amended characterisation applied to a concrete active
session with exactly one of two tokens expired. -/
theorem c2_witness_half_expired_active :
    is_session_expired (some c2HalfExpiredSession) = false :=
  (c2_session_expired_characterization c2HalfExpiredSession).2
    (by decide) (by decide) (by decide)

/-- The cookie carrying the sample token, and a decoder table recognising
its raw value. -/
def c3Cookie : HarCookie := { name := some "last_login_jwt", value := some "eyJraw1" }

/-- A concrete JWT decoder: recognises the sample raw token only. -/
def c3Decoder : String → Option DecodedJwt := fun v =>
  if v = "eyJraw1" then
    some { payload := some { gp := some "Okta", exp := some 1500000000,
                             iat := some 1400000000, jti := some "jti-1",
                             gu := some "a@b.com", cell := some "us-14496" } }
  else none

/-- An active session holding the sample unexpired token. -/
def c3Session : GongSession :=
  { session_id := "gong_session_20240101_000002", user_email := "a@b.com",
    cell_id := "us-14496", company_id := none, workspace_id := none,
    authentication_tokens := [sampleUnexpiredToken], session_cookies := [],
    created_at := 1400000001, last_activity := 1400000001, is_active := true }

/-- C3 counterexample: the token produced by _process_jwt_cookie at clock
1400000001 carries is_expired = false; at the later observation time
1600000000 the clock is past expires_at, yet every check (here
is_session_expired, which consults only the stored flags and takes no clock
at all) still sees false. The flag is fixed at construction, not
re-evaluated per check. -/
theorem c3_counterexample_flag_not_reevaluated :
    process_jwt_cookie c3Decoder 1400000001 c3Cookie = some sampleUnexpiredToken ∧
    sampleUnexpiredToken.is_expired = false ∧
    sampleUnexpiredToken.expires_at < 1600000000 ∧
    is_session_expired (some c3Session) = false := by decide

/-- C3 (amended): a token's is_expired flag equals now > expires_at evaluated
with the clock reading at construction time (and expires_at is the payload
exp claim); later checks read this stored value. -/
theorem c3_is_expired_fixed_at_construction (token_type raw_token : String)
    (payload : GongJWTPayload) (now : Int) :
    (mkGongAuthenticationToken token_type raw_token payload now).is_expired
        = decide (now > payload.exp) ∧
    (mkGongAuthenticationToken token_type raw_token payload now).expires_at
        = payload.exp :=
  ⟨rfl, rfl⟩

/-- C9: when the elapsed time since the last request is below
min_request_interval, _handle_rate_limiting sleeps exactly (hence at least)
the shortfall; when the elapsed time meets or exceeds min_request_interval
it does not sleep. It never fails (it is a total function). -/
theorem c9_rate_limiter_delay (min_request_interval : Int) (st : RateLimitState)
    (current_time : Int) :
    (current_time - st.last_request_time < min_request_interval →
      (handle_rate_limiting min_request_interval st current_time).1 =
          min_request_interval - (current_time - st.last_request_time) ∧
      min_request_interval - (current_time - st.last_request_time) ≤
        (handle_rate_limiting min_request_interval st current_time).1) ∧
    (min_request_interval ≤ current_time - st.last_request_time →
      (handle_rate_limiting min_request_interval st current_time).1 = 0) := by
  unfold handle_rate_limiting
  constructor
  · intro h
    simp [h]
  · intro h
    simp [if_neg (not_lt.mpr h)]

/-- C9 witness: with a 100000-tick interval, a last request at tick 0 and the
second call arriving at tick 30000, the sleep is exactly the 70000-tick
shortfall. -/
theorem c9_witness :
    (handle_rate_limiting 100000 ⟨0⟩ 30000).1 = 100000 - (30000 - 0) ∧
    100000 - (30000 - 0) ≤ (handle_rate_limiting 100000 ⟨0⟩ 30000).1 :=
  (c9_rate_limiter_delay 100000 ⟨0⟩ 30000).1 (by decide)

/-- C10: _extract_session_from_artifacts installs the new session in
current_session and session_cache only after validation; whenever it raises,
the manager state is exactly what it was before the call. -/
theorem c10_failed_extraction_preserves_state (now : Int) (session_id : String)
    (st : MgrState) (artifacts : List Artifact) (e : AuthErrorKind)
    (h : (extract_session_from_artifacts now session_id st artifacts).2 =
      .error e) :
    (extract_session_from_artifacts now session_id st artifacts).1 = st := by
  unfold extract_session_from_artifacts
  by_cases h1 : (collectArtifacts now artifacts).1 = []
  · simp [h1]
  · cases hui : extract_user_info (collectArtifacts now artifacts).1 with
    | none => simp [h1, hui]
    | some ui =>
      cases hmk : mkGongSession session_id ui (collectArtifacts now artifacts).1
          (collectArtifacts now artifacts).2 now with
      | error e2 => simp [h1, hui, hmk]
      | ok session =>
        cases hv : validate_session session with
        | error e2 => simp [h1, hui, hmk, hv]
        | ok u =>
          exfalso
          unfold extract_session_from_artifacts at h
          simp [h1, hui, hmk, hv] at h

/-- A manager state holding a current session and a cache entry, used to
witness that a failing extraction leaves it untouched. -/
def c10State : MgrState :=
  { current_session := some c3Session
    session_cache := [("gong_session_20240101_000002", c3Session)] }

/-- C10 witness: extraction from an empty artifact list fails and leaves a
concrete non-trivial manager state exactly as it was. -/
theorem c10_witness :
    (extract_session_from_artifacts 0 "sid" c10State []).1 = c10State :=
  c10_failed_extraction_preserves_state 0 "sid" c10State []
    (.authenticationError "No JWT tokens found in artifacts") (by decide)

/-- C6: on an operation whose first failure is not auth-class,
_execute_with_retry invokes no refresh, does not retry the operation (one
single call), and surfaces that failure wrapped in the aggregate
GongAgentError message. -/
theorem c6_nonauth_error_no_refresh {α : Type} (op : Nat → Except String α)
    (operation_name : String) (max_retries : Nat) (auto_refresh_enabled : Bool)
    (refreshOk : Nat → Bool) (e : String)
    (h0 : op 0 = .error e) (hna : isAuthError e = false) :
    execute_with_retry op operation_name max_retries auto_refresh_enabled
        refreshOk =
      ⟨.error (agentErrorMsg operation_name max_retries (some e)), 0, 1⟩ := by
  unfold execute_with_retry
  simp [executeWithRetryGo, h0, hna]

/-- C6 witness: a connection failure (no auth-class substring) is surfaced
with no refresh and a single operation call. -/
theorem c6_witness :
    execute_with_retry
        (fun _ : Nat => (Except.error "connection reset" : Except String Unit))
        "extract_calls" 1 true (fun _ => true) =
      ⟨.error (agentErrorMsg "extract_calls" 1 (some "connection reset")), 0, 1⟩ :=
  c6_nonauth_error_no_refresh
    (fun _ : Nat => (Except.error "connection reset" : Except String Unit))
    "extract_calls" 1 true (fun _ => true) "connection reset" rfl (by decide)

/-- The aggregate message for max_retries = 1 spelled out: it names the
operation and says it failed after 2 attempts. -/
theorem agentErrorMsg_two (operation_name e : String) :
    agentErrorMsg operation_name 1 (some e) =
      operation_name ++ " failed after 2 attempts: " ++ e := by
  unfold agentErrorMsg
  rw [show (toString (1 + 1 : Nat)) = "2" from rfl,
    strAppendAssoc operation_name " failed after " "2",
    show (" failed after " ++ "2" : String) = " failed after 2" from rfl,
    strAppendAssoc operation_name " failed after 2" " attempts: ",
    show (" failed after 2" ++ " attempts: " : String) =
      " failed after 2 attempts: " from rfl]

/-- C1: with max_retries = 1 and auto refresh enabled (the agent's
construction-time default), an operation that raises an auth-class error on
every attempt makes _execute_with_retry invoke the session refresh exactly
once, and the call ends in a GongAgentError whose message starts with the
operation name and says it failed after 2 attempts (whether the refresh
succeeded, leading to a second operation call, or itself failed, breaking
the loop). -/
theorem c1_retry_auth_class_failure_refreshes_once {α : Type}
    (op : Nat → Except String α) (operation_name : String)
    (refreshOk : Nat → Bool)
    (h : ∀ k, ∃ e, op k = .error e ∧ isAuthError e = true) :
    ∃ k e, k ≤ 1 ∧ op k = Except.error e ∧
      execute_with_retry op operation_name 1 true refreshOk =
        ⟨.error (operation_name ++ " failed after 2 attempts: " ++ e), 1,
          if refreshOk 0 then 2 else 1⟩ := by
  obtain ⟨e0, h0, a0⟩ := h 0
  obtain ⟨e1, h1, a1⟩ := h 1
  by_cases hr : refreshOk 0
  · refine ⟨1, e1, by omega, h1, ?_⟩
    unfold execute_with_retry
    simp [executeWithRetryGo, h0, a0, hr, h1, a1, agentErrorMsg_two]
  · refine ⟨0, e0, by omega, h0, ?_⟩
    unfold execute_with_retry
    simp [executeWithRetryGo, h0, a0, hr, agentErrorMsg_two]

/-- C1 witness: an operation that always raises a bare 401 error, with a
refresh that succeeds: exactly one refresh, two operation calls, and the
aggregate error names the operation and 2 attempts. -/
theorem c1_witness :
    ∃ k e, k ≤ 1 ∧
      (fun _ : Nat => (Except.error "401" : Except String Unit)) k =
        Except.error e ∧
      execute_with_retry
          (fun _ : Nat => (Except.error "401" : Except String Unit))
          "extract_calls" 1 true (fun _ => true) =
        ⟨.error ("extract_calls" ++ " failed after 2 attempts: " ++ e), 1,
          if (fun _ : Nat => true) 0 then 2 else 1⟩ :=
  c1_retry_auth_class_failure_refreshes_once
    (fun _ : Nat => (Except.error "401" : Except String Unit))
    "extract_calls" (fun _ => true)
    (fun _ => ⟨"401", rfl, by decide⟩)

/-- A JWT artifact whose payload carries a valid identity claim but no cell
claim, already expired at clock 2000000000. -/
def c4PayloadData : JwtPayloadData :=
  { gp := none, exp := some 1500000000, iat := some 1400000000,
    jti := some "jti-2", gu := some "a@b.com", cell := none }

def c4Artifact : Artifact :=
  { type := "cookie_last_login_jwt", name := some "last_login_jwt",
    value := some "eyJraw3",
    decoded_value := some ⟨some c4PayloadData⟩ }

/-- A JWT artifact whose payload carries an identity and the 2-character
cell id us, already expired at clock 2000000000. -/
def c4ShortCellPayloadData : JwtPayloadData :=
  { gp := none, exp := some 1500000000, iat := some 1400000000,
    jti := some "jti-3", gu := some "a@b.com", cell := some "us" }

def c4ShortCellArtifact : Artifact :=
  { type := "cookie_cell_jwt", name := some "cell_jwt",
    value := some "eyJraw4",
    decoded_value := some ⟨some c4ShortCellPayloadData⟩ }

/-- C4 counterexample, two failing inputs for the original claim. First: an
all-expired token without a cell id; tokens exist and every one is expired,
yet construction raises GongAuthenticationError (no user information), not
GongSessionExpiredError (the identity check runs first). Second: an
all-expired token whose identity has the 2-character cell id us; again
every token is expired, yet the pydantic cell_id validator makes GongSession
construction raise ValidationError, which escapes uncaught, neither of the
two errors the claim allows. -/
theorem c4_counterexample_wrong_error_for_expired_tokens :
    ((collectArtifacts 2000000000 [c4Artifact]).1 ≠ [] ∧
      (∀ t ∈ (collectArtifacts 2000000000 [c4Artifact]).1, t.is_expired = true) ∧
      extract_session_from_artifacts 2000000000 "sid" ⟨none, []⟩ [c4Artifact] =
        (⟨none, []⟩,
          .error (.authenticationError "No user information found in JWT tokens"))) ∧
    ((collectArtifacts 2000000000 [c4ShortCellArtifact]).1 ≠ [] ∧
      (∀ t ∈ (collectArtifacts 2000000000 [c4ShortCellArtifact]).1,
        t.is_expired = true) ∧
      extract_session_from_artifacts 2000000000 "sid" ⟨none, []⟩
          [c4ShortCellArtifact] =
        (⟨none, []⟩, .error (.validationError "Invalid cell ID format"))) := by
  decide

/-- Identity derivation only succeeds on a truthy cell id, so the derived
cell id is never the empty string. -/
theorem extract_user_info_cell_nonempty :
    ∀ (l : List GongAuthenticationToken) (ui : UserInfo),
      extract_user_info l = some ui → ui.cell_id ≠ "" := by
  intro l
  induction l with
  | nil => intro ui h; simp [extract_user_info] at h
  | cons t rest ih =>
    intro ui h
    unfold extract_user_info at h
    by_cases hc : t.user_email ≠ "" ∧ t.cell_id.getD "" ≠ ""
    · rw [if_pos hc] at h
      cases h
      exact hc.2
    · rw [if_neg hc] at h
      exact ih ui h

/-- C4 (amended): construction raises GongAuthenticationError whenever the
artifacts yield zero tokens, and also (taking precedence over the expiry
check, even when every token is expired) whenever no token carries both a
user identity and a cell id. When an identity is derived but its cell id is
shorter than 3 characters, the pydantic cell_id validator makes GongSession
construction raise ValidationError, which escapes uncaught, before the
expiry check is reached. GongSessionExpiredError is raised exactly when
tokens exist, the derived identity's cell id is well-formed, and every token
is already expired. In all these cases no session is produced. -/
theorem c4_construction_failure_taxonomy (now : Int) (session_id : String)
    (st : MgrState) (artifacts : List Artifact) :
    ((collectArtifacts now artifacts).1 = [] →
      extract_session_from_artifacts now session_id st artifacts =
        (st, .error (.authenticationError "No JWT tokens found in artifacts"))) ∧
    (extract_user_info (collectArtifacts now artifacts).1 = none →
      (collectArtifacts now artifacts).1 ≠ [] →
      extract_session_from_artifacts now session_id st artifacts =
        (st, .error (.authenticationError "No user information found in JWT tokens"))) ∧
    (∀ ui, extract_user_info (collectArtifacts now artifacts).1 = some ui →
      ui.cell_id.length < 3 →
      extract_session_from_artifacts now session_id st artifacts =
        (st, .error (.validationError "Invalid cell ID format"))) ∧
    (∀ ui, extract_user_info (collectArtifacts now artifacts).1 = some ui →
      3 ≤ ui.cell_id.length →
      (∀ t ∈ (collectArtifacts now artifacts).1, t.is_expired = true) →
      extract_session_from_artifacts now session_id st artifacts =
        (st, .error (.sessionExpiredError "All session tokens have expired"))) := by
  refine ⟨?_, ?_, ?_, ?_⟩
  · intro h1
    unfold extract_session_from_artifacts
    simp [h1]
  · intro hui h1
    unfold extract_session_from_artifacts
    simp [h1, hui]
  · intro ui hui hlen
    have hne : (collectArtifacts now artifacts).1 ≠ [] := by
      intro hnil
      rw [hnil] at hui
      simp [extract_user_info] at hui
    have hcell : ui.cell_id ≠ "" ∧ ui.cell_id.length < 3 :=
      ⟨extract_user_info_cell_nonempty _ ui hui, hlen⟩
    unfold extract_session_from_artifacts
    simp [hne, hui, mkGongSession, hcell.1, hcell.2]
  · intro ui hui hlen hexp
    have hne : (collectArtifacts now artifacts).1 ≠ [] := by
      intro hnil
    -- an empty token list cannot produce an identity
      rw [hnil] at hui
      simp [extract_user_info] at hui
    have hcell : ¬(ui.cell_id ≠ "" ∧ ui.cell_id.length < 3) := by
      intro hc
      omega
    have hfil : (collectArtifacts now artifacts).1.filter
        (fun t => !t.is_expired) = [] := by
      refine List.filter_eq_nil_iff.mpr (fun t ht => ?_)
      simp [hexp t ht]
    unfold extract_session_from_artifacts
    simp [hne, hui, mkGongSession, hcell, validate_session, hfil]

/-- C4 witness: extraction from an empty artifact list raises the
no-tokens GongAuthenticationError. -/
theorem c4_witness :
    extract_session_from_artifacts 0 "sid" ⟨none, []⟩ [] =
      (⟨none, []⟩,
        .error (.authenticationError "No JWT tokens found in artifacts")) :=
  (c4_construction_failure_taxonomy 0 "sid" ⟨none, []⟩ []).1 (by decide)

/-- An active session whose only token is already expired. -/
def c5Session : GongSession :=
  { session_id := "gong_session_20240101_000003", user_email := "a@b.com",
    cell_id := "us-14496", company_id := none, workspace_id := none,
    authentication_tokens := [sampleExpiredToken], session_cookies := [],
    created_at := 2000000000, last_activity := 2000000000, is_active := true }

/-- C5 counterexample: refreshing a fully-expired session rewrites the
token's expires_at in place, from its original 1500000000 to
now + 1 hour = 2000003600, on the very same session (same session_id); it
even leaves the stored is_expired flag at true. No brand-new Session is
produced. -/
theorem c5_counterexample_refresh_rewrites_expiry :
    (refresh_session 2000000000 c5Session).session_id = c5Session.session_id ∧
    c5Session.authentication_tokens.map (fun t => t.expires_at) =
      [1500000000] ∧
    (refresh_session 2000000000 c5Session).authentication_tokens.map
        (fun t => t.expires_at) = [2000003600] ∧
    (refresh_session 2000000000 c5Session).authentication_tokens.map
        (fun t => t.is_expired) = [true] := by decide

/-- C5 (amended): refresh_session keeps the session's identity
(session_id unchanged, same object mutated in place). When some token is
unexpired it only bumps last_activity; when every token is expired it
rewrites each token's expires_at in place to now + 1 hour, leaving the
stored is_expired flags untouched, and sets is_active. -/
theorem c5_refresh_behavior (now : Int) (s : GongSession) :
    (refresh_session now s).session_id = s.session_id ∧
    ((∃ t ∈ s.authentication_tokens, t.is_expired = false) →
      refresh_session now s = { s with last_activity := now }) ∧
    ((∀ t ∈ s.authentication_tokens, t.is_expired = true) →
      (refresh_session now s).authentication_tokens.map (fun t => t.expires_at) =
        s.authentication_tokens.map (fun _ => now + 3600) ∧
      (refresh_session now s).authentication_tokens.map (fun t => t.is_expired) =
        s.authentication_tokens.map (fun t => t.is_expired) ∧
      (refresh_session now s).is_active = true) := by
  refine ⟨?_, ?_, ?_⟩
  · unfold refresh_session
    by_cases hP : s.authentication_tokens.filter (fun t => !t.is_expired) ≠ [] <;>
      simp [hP]
  · rintro ⟨t, ht, hexp⟩
    have hP : s.authentication_tokens.filter (fun t => !t.is_expired) ≠ [] :=
      List.ne_nil_of_mem (List.mem_filter.mpr ⟨ht, by simp [hexp]⟩)
    unfold refresh_session
    simp [hP]
  · intro hall
    have hP : s.authentication_tokens.filter (fun t => !t.is_expired) = [] := by
      refine List.filter_eq_nil_iff.mpr (fun t ht => ?_)
      simp [hall t ht]
    unfold refresh_session
    simp only [hP, ne_eq, not_true_eq_false, if_false, List.map_map]
    refine ⟨?_, ?_, ?_⟩
    · refine List.map_congr_left (fun t ht => ?_)
      simp [Function.comp, hall t ht]
    · refine List.map_congr_left (fun t ht => ?_)
      simp only [Function.comp]
      by_cases he : t.is_expired <;> simp [he]
    · trivial

/-- C5 witness: the amended behaviour applied to the concrete fully-expired
session. -/
theorem c5_witness :
    (refresh_session 2000000000 c5Session).authentication_tokens.map
        (fun t => t.expires_at) =
      c5Session.authentication_tokens.map (fun _ => 2000000000 + 3600) :=
  ((c5_refresh_behavior 2000000000 c5Session).2.2 (by decide)).1

/-- A valid session holding the same unexpired token twice (reachable: the
artifact path appends decoded JWTs without deduplication) and one cookie
recorded with an empty value. -/
def c7DupSession : GongSession :=
  { session_id := "gong_artifacts_20240101_000000", user_email := "a@b.com",
    cell_id := "us-14496", company_id := none, workspace_id := none,
    authentication_tokens := [sampleUnexpiredToken, sampleUnexpiredToken],
    session_cookies := [("g-session", "")],
    created_at := 1400000001, last_activity := 1400000001, is_active := true }

/-- A valid session holding one unexpired token and one cookie with a
non-empty value. -/
def c7WitnessSession : GongSession :=
  { session_id := "gong_artifacts_20240101_000001", user_email := "a@b.com",
    cell_id := "us-14496", company_id := none, workspace_id := none,
    authentication_tokens := [sampleUnexpiredToken],
    session_cookies := [("g-session", "xyz")],
    created_at := 1400000001, last_activity := 1400000001, is_active := true }

/-- C7 counterexample, one valid session failing the exactly-once claim
twice over: the recorded cookie pair (g-session, empty value) appears zero
times in the Cookie header (the source keeps only truthy values), and the
duplicated unexpired token's entry appears twice (the artifact path never
deduplicates the token list). -/
theorem c7_counterexample_dropped_and_duplicated_entries :
    is_session_valid c7DupSession = true ∧
    ("g-session", "") ∈ c7DupSession.session_cookies ∧
    (cookieParts c7DupSession).count ("g-session" ++ "=" ++ "") = 0 ∧
    sampleUnexpiredToken ∈ c7DupSession.authentication_tokens ∧
    sampleUnexpiredToken.is_expired = false ∧
    (cookieParts c7DupSession).count
      (sampleUnexpiredToken.token_type ++ "=" ++
        sampleUnexpiredToken.raw_token) = 2 ∧
    get_session_headers none (some c7DupSession) =
      .ok (standardHeaders ++
        [("Cookie", "last_login_jwt=eyJraw1; last_login_jwt=eyJraw1")]) := by
  refine ⟨by decide, by decide, by decide, by decide, by decide, by decide, ?_⟩
  rfl

/-- Counting occurrences of a value in a mapped list counts the preimages
mapped onto it. -/
theorem count_map_countP {α β : Type} [DecidableEq α] [DecidableEq β]
    (f : α → β) (l : List α) (b : β) :
    (l.map f).count b = l.countP (fun a => f a == b) := by
  rw [List.count_eq_countP, List.countP_map]
  rfl

/-- C7 (amended): for every valid session, the Cookie header parts comprise
exactly one token_type=raw_token entry per occurrence of an unexpired token
in the session's token list (a duplicated token appears once per
occurrence), followed by one name=value entry per recorded cookie with a
non-empty value: every entry string occurs precisely as many times as
unexpired tokens and non-empty cookies produce it. Cookies recorded with an
empty value are omitted and expired tokens are excluded. -/
theorem c7_header_contents (s : GongSession) (hv : is_session_valid s = true) :
    (∀ e : String, (cookieParts s).count e =
      (s.authentication_tokens.filter (fun t => !t.is_expired)).countP
          (fun t => t.token_type ++ "=" ++ t.raw_token == e) +
      (s.session_cookies.filter (fun nv => nv.2 ≠ "")).countP
          (fun nv => nv.1 ++ "=" ++ nv.2 == e)) ∧
    (∀ t ∈ s.authentication_tokens, t.is_expired = false →
      (t.token_type ++ "=" ++ t.raw_token) ∈ cookieParts s) ∧
    (∀ nv ∈ s.session_cookies, nv.2 ≠ "" →
      (nv.1 ++ "=" ++ nv.2) ∈ cookieParts s) ∧
    get_session_headers none (some s) =
      .ok (standardHeaders ++
        (if cookieParts s ≠ [] then
          [("Cookie", String.intercalate "; " (cookieParts s))]
        else [])) := by
  refine ⟨?_, ?_, ?_, ?_⟩
  · intro e
    unfold cookieParts
    rw [List.count_append, count_map_countP, count_map_countP]
  · intro t ht hexp
    refine List.mem_append_left _ ?_
    exact List.mem_map_of_mem _ (List.mem_filter.mpr ⟨ht, by simp [hexp]⟩)
  · intro nv hnv hne
    refine List.mem_append_right _ ?_
    exact List.mem_map_of_mem _ (List.mem_filter.mpr ⟨hnv, by simpa using hne⟩)
  · simp [get_session_headers, hv]

/-- C7 witness: in the concrete valid session the unexpired token's entry
appears in the assembled cookie parts. -/
theorem c7_witness :
    ("last_login_jwt" ++ "=" ++ "eyJraw1") ∈ cookieParts c7WitnessSession :=
  (c7_header_contents c7WitnessSession (by decide)).2.1
    sampleUnexpiredToken (by decide) (by decide)

/-- The ways a JWT cookie can be malformed for _process_jwt_cookie: missing
or empty value, no eyJ prefix, undecodable value, decoder result without a
payload, or a payload dictionary rejected by GongJWTPayload validation
(missing required field, out-of-range timestamp, malformed email). -/
def malformedHarCookie (decode : String → Option DecodedJwt)
    (c : HarCookie) : Prop :=
  c.value.getD "" = "" ∨
  strStartsWith (c.value.getD "") "eyJ" = false ∨
  decode (c.value.getD "") = none ∨
  (∃ dj, decode (c.value.getD "") = some dj ∧ dj.payload = none) ∨
  (∃ dj pd, decode (c.value.getD "") = some dj ∧ dj.payload = some pd ∧
    mkGongJWTPayload pd = none)

/-- C8: _process_jwt_cookie is total and yields none on every malformed
cookie; an exp timestamp outside the sane Unix-second range
[1000000000, 9999999999] is rejected by payload validation; and an artifact
whose decoding yields none is skipped by the extraction loop, leaving the
accumulated tokens and cookies unchanged rather than aborting. -/
theorem c8_malformed_never_constructs (decode : String → Option DecodedJwt)
    (now : Int) (c : HarCookie) (pd : JwtPayloadData) (e : Int)
    (a : Artifact) (rest : List Artifact)
    (acc : List GongAuthenticationToken × List (String × String)) :
    (malformedHarCookie decode c → process_jwt_cookie decode now c = none) ∧
    (pd.exp = some e → (e < 1000000000 ∨ 9999999999 < e) →
      mkGongJWTPayload pd = none) ∧
    (pd.iat = some e → (e < 1000000000 ∨ 9999999999 < e) →
      mkGongJWTPayload pd = none) ∧
    (process_jwt_artifact now a = none →
      strStartsWith a.type "cookie_" = true →
      strReplace a.type "cookie_" "" ∈ jwtArtifactTypes →
      collectArtifactsGo now (a :: rest) acc = collectArtifactsGo now rest acc) := by
  refine ⟨?_, ?_, ?_, ?_⟩
  · intro hm
    unfold process_jwt_cookie
    by_cases hv : c.value.getD "" = ""
    · simp [hv]
    · by_cases hs : strStartsWith (c.value.getD "") "eyJ"
      · rcases hm with h | h | h | ⟨dj, hdj, hp⟩ | ⟨dj, pd', hdj, hp, hmk⟩
        · exact absurd h hv
        · rw [hs] at h
          exact absurd h (by simp)
        · simp [hv, hs, h]
        · simp [hv, hs, hdj, hp]
        · simp [hv, hs, hdj, hp, hmk]
      · simp [hv, hs]
  · intro hexp hrange
    unfold mkGongJWTPayload
    rw [hexp]
    cases hiat : pd.iat with
    | none => rfl
    | some i =>
      cases hjti : pd.jti with
      | none => rfl
      | some j =>
        cases hgu : pd.gu with
        | none => rfl
        | some g =>
          have hval : validTimestamp e = false := by
            unfold validTimestamp
            rcases hrange with h | h
            · simp
              intro hc
              omega
            · simp
              intro hc
              omega
          simp [hval]
  · intro hiat hrange
    unfold mkGongJWTPayload
    cases hexp : pd.exp with
    | none => rfl
    | some x =>
      rw [hiat]
      cases hjti : pd.jti with
      | none => rfl
      | some j =>
        cases hgu : pd.gu with
        | none => rfl
        | some g =>
          have hval : validTimestamp e = false := by
            unfold validTimestamp
            rcases hrange with h | h
            · simp
              intro hc
              omega
            · simp
              intro hc
              omega
          simp [hval]
  · intro hnone hpre hjwt
    show collectArtifactsGo now rest (collectStep now acc a) =
      collectArtifactsGo now rest acc
    rw [show collectStep now acc a = acc from by
      unfold collectStep
      simp [hpre, hjwt, hnone]]

/-- C8 witness: a cookie whose value lacks the eyJ prefix yields none. -/
theorem c8_witness :
    process_jwt_cookie (fun _ => none) 0
        ({ name := some "last_login_jwt", value := some "notajwt" } : HarCookie) =
      none :=
  (c8_malformed_never_constructs (fun _ => none) 0
      ({ name := some "last_login_jwt", value := some "notajwt" } : HarCookie)
      ({} : JwtPayloadData) 0 ({} : Artifact) [] ([], [])).1
    (Or.inr (Or.inl (by decide)))

end GongTools
